import Mathlib

/-!
Shallow embedding of the Excel_format repository core
(`excel_utils.py`, `models.py`, `llm_api.py`) and verification of its
specification claims.

The grid accessor layer (openpyxl) is abstracted as the `Cell` / `Sheet` /
`Workbook` structures below; the functions `analyze_excel_structure` and
`excel_to_text_representation` are translated line by line from
`src/excel_utils.py`, the Pydantic data model from `src/models.py`, and the
reply parsing/validation pipeline from `src/llm_api.py`
(`analyze_excel_with_llm`).
-/

namespace ExcelFormat

/-- A cell as exposed by the grid accessor: an optional value (already in its
textual form, `str(cell.value)`), the bold font flag (`cell.font.bold`), and
whether the cell has a non-default pattern fill
(`cell.fill.patternType and cell.fill.patternType != 'none'`). -/
structure Cell where
  value : Option String
  bold : Bool
  hasFill : Bool

/-- A merged-cell range, as in `openpyxl` `MergedCellRange`:
a rectangle given by 1-based inclusive bounds. -/
structure MergeRange where
  min_row : Nat
  min_col : Nat
  max_row : Nat
  max_col : Nat
deriving DecidableEq

/-- Membership of the 1-based position `(r, c)` in a merge range, as tested at
`excel_utils.py:112-113`. -/
def MergeRange.containsCell (mr : MergeRange) (r c : Nat) : Bool :=
  decide (mr.min_row ≤ r) && decide (r ≤ mr.max_row) &&
  decide (mr.min_col ≤ c) && decide (c ≤ mr.max_col)

/-- A worksheet: declared extent, cell lookup by 1-based (row, column),
its list of merge ranges, and the count of native Excel table objects. -/
structure Sheet where
  max_row : Nat
  max_column : Nat
  cells : Nat → Nat → Cell
  merged_ranges : List MergeRange
  num_tables : Nat

/-- A workbook: ordered sheets keyed by name (`workbook.sheetnames` order). -/
structure Workbook where
  sheets : List (String × Sheet)

/-! ## Structural profiler (`analyze_excel_structure`, excel_utils.py:10-66) -/

/-- Count of non-empty cells over the full declared extent:
the nested `iter_rows` loop at excel_utils.py:40-43. -/
def nonEmptyCells (s : Sheet) : Nat :=
  ((List.range s.max_row).map (fun i =>
    (List.range s.max_column).countP (fun j =>
      ((s.cells (i + 1) (j + 1)).value).isSome))).sum

/-- `data_density` as computed at excel_utils.py:45-49: the ratio of non-empty
cells to `max_row * max_column`, and `0` when that product is `0`. -/
def data_density (s : Sheet) : ℚ :=
  if 0 < s.max_row * s.max_column then
    (nonEmptyCells s : ℚ) / ((s.max_row * s.max_column : Nat) : ℚ)
  else 0

/-- The number of merge ranges, `len(sheet.merged_cells.ranges)`
(excel_utils.py:54). -/
def num_merged_cells (s : Sheet) : Nat :=
  s.merged_ranges.length

/-- The per-sheet statistics dictionary built by `analyze_excel_structure`. -/
structure SheetStats where
  max_row : Nat
  max_column : Nat
  dataDensity : ℚ
  non_empty_cells : Nat
  numMergedCells : Nat
  has_excel_tables : Bool
  num_excel_tables : Option Nat

/-- The per-sheet body of `analyze_excel_structure` (excel_utils.py:28-64). -/
def sheetStats (s : Sheet) : SheetStats :=
  { max_row := s.max_row
    max_column := s.max_column
    dataDensity := data_density s
    non_empty_cells := nonEmptyCells s
    numMergedCells := num_merged_cells s
    has_excel_tables := s.num_tables ≠ 0
    num_excel_tables := if s.num_tables ≠ 0 then some s.num_tables else none }

/-- The error message built at excel_utils.py:24 and :83. -/
def loadErrMsg (e : String) : String :=
  "ファイルの読み込みに失敗しました: " ++ e

/-- `analyze_excel_structure` (excel_utils.py:10-66).  The workbook load
(`openpyxl.load_workbook`) is external; its outcome is the `Except` argument.
On load failure the function returns the single-key error dictionary, modelled
as the `Except.error` branch carrying `loadErrMsg`; otherwise one statistics
entry per sheet, keyed by sheet name. -/
def analyze_excel_structure (load : Except String Workbook) :
    Except String (List (String × SheetStats)) :=
  match load with
  | .error e => .error (loadErrMsg e)
  | .ok wb => .ok (wb.sheets.map (fun p => (p.1, sheetStats p.2)))

/-! ## Text serializer (`excel_to_text_representation`, excel_utils.py:69-143) -/

/-- Base text of a cell (excel_utils.py:104-107): `[EMPTY]` when the value is
absent, otherwise the value's textual form. -/
def baseText (c : Cell) : String :=
  match c.value with
  | none => "[EMPTY]"
  | some v => v

/-- The merge-override step (excel_utils.py:110-121): the loop over
`sheet.merged_cells.ranges` with `break` keeps the first containing range;
the anchor (min_row, min_col) keeps the current text, every other covered
cell becomes `[MERGED]`. -/
def mergeText (s : Sheet) (r c : Nat) (t : String) : String :=
  match s.merged_ranges.find? (fun mr => mr.containsCell r c) with
  | some mr => if r = mr.min_row ∧ c = mr.min_col then t else "[MERGED]"
  | none => t

/-- Full per-cell rendering (excel_utils.py:101-129): value/emptiness, merge
override, bold wrap, fill markup, in that order. -/
def renderCell (s : Sheet) (r c : Nat) : String :=
  let cell := s.cells r c
  let t1 := mergeText s r c (baseText cell)
  let t2 := if cell.bold then "**" ++ t1 ++ "**" else t1
  if cell.hasFill then "[BG]" ++ t2 else t2

/-- The `row_cells` list for one row (the column loop at
excel_utils.py:100-131): every column `1 .. max_column`. -/
def rowCells (s : Sheet) (r : Nat) : List String :=
  (List.range s.max_column).map (fun j => renderCell s r (j + 1))

/-- One serialized row line (excel_utils.py:134). -/
def rowText (s : Sheet) (r : Nat) : String :=
  "row" ++ toString r ++ ": | " ++ String.intercalate " | " (rowCells s r) ++ " |"

/-- The row lines for rows `1 .. min(max_row, max_rows)`
(excel_utils.py:95-135). -/
def rowLines (s : Sheet) (maxRows : Nat) : List String :=
  (List.range (min s.max_row maxRows)).map (fun i => rowText s (i + 1))

/-- The truncation notice appended at excel_utils.py:139. -/
def truncNotice (trueRows cap : Nat) : String :=
  "... (実際には" ++ toString trueRows ++ "行ありますが、最初の" ++
    toString cap ++ "行のみ表示)"

/-- All lines for one sheet: the row lines, plus the truncation notice exactly
when `max_row > max_rows` (excel_utils.py:138-139). -/
def sheetAllLines (s : Sheet) (maxRows : Nat) : List String :=
  if s.max_row > maxRows then
    rowLines s maxRows ++ [truncNotice s.max_row maxRows]
  else rowLines s maxRows

/-- Per-sheet serialized text: the newline join at excel_utils.py:141. -/
def sheetText (s : Sheet) (maxRows : Nat) : String :=
  String.intercalate "\n" (sheetAllLines s maxRows)

/-- `excel_to_text_representation` (excel_utils.py:69-143).  The result
dictionary is modelled as an association list; on load failure it is the
single-entry `{"error": ...}` dictionary, otherwise one entry per sheet keyed
by sheet name.  `maxRows` defaults to 20 at the call sites. -/
def excel_to_text_representation (load : Except String Workbook)
    (maxRows : Nat) : List (String × String) :=
  match load with
  | .error e => [("error", loadErrMsg e)]
  | .ok wb => wb.sheets.map (fun p => (p.1, sheetText p.2 maxRows))

/-- Key-membership test on the result dictionary, as the caller performs with
`if "error" in text_representations` (app.py:133). -/
def hasKey (l : List (String × String)) (k : String) : Bool :=
  l.any (fun p => p.1 == k)

/-! ## Data model (`models.py`) -/

/-- `header_type ∈ {"single", "multi-level"}` (models.py:13-16). -/
inductive HeaderType where
  | single
  | multiLevel
deriving DecidableEq

/-- The literal string of a `HeaderType`. -/
def HeaderType.toLiteral : HeaderType → String
  | .single => "single"
  | .multiLevel => "multi-level"

/-- Inverse of `HeaderType.toLiteral`: which strings the `Literal` field
accepts. -/
def headerTypeOfString : String → Option HeaderType
  | "single" => some .single
  | "multi-level" => some .multiLevel
  | _ => none

/-- `HeaderInfo` (models.py:9-16): required integer start/end rows and a
required header type.  No relation between `start_row` and `end_row` is
declared on the model. -/
structure HeaderInfo where
  start_row : Int
  end_row : Int
  header_type : HeaderType
deriving DecidableEq

/-- `sheet_type ∈ {"table", "form", "mixed", "unknown"}` (models.py:23-26). -/
inductive SheetType where
  | table
  | form
  | mixed
  | unknown
deriving DecidableEq

/-- The literal string of a `SheetType`. -/
def SheetType.toLiteral : SheetType → String
  | .table => "table"
  | .form => "form"
  | .mixed => "mixed"
  | .unknown => "unknown"

/-- Inverse of `SheetType.toLiteral`. -/
def sheetTypeOfString : String → Option SheetType
  | "table" => some .table
  | "form" => some .form
  | "mixed" => some .mixed
  | "unknown" => some .unknown
  | _ => none

/-- `SheetAnalysisResult` (models.py:19-33): name, type, optional header info
(defaulting to `None`), and reasoning. -/
structure SheetAnalysisResult where
  sheet_name : String
  sheet_type : SheetType
  header_info : Option HeaderInfo
  reasoning : String
deriving DecidableEq

/-- `ExcelAnalysisOutput` (models.py:36-41): the list of per-sheet results. -/
structure ExcelAnalysisOutput where
  sheets : List SheetAnalysisResult
deriving DecidableEq

/-! ## Reply parsing and validation (`analyze_excel_with_llm`, llm_api.py:233-258)

The structured data produced by `json.loads` is modelled by the `Json`
inductive; the `json.loads` call itself is an external library call and is
passed in as a function argument where needed.  Pydantic construction
(`ExcelAnalysisOutput(**json_data)`, models.py) is modelled by the
`validate*` functions: each required field must be present with the right
type, `Literal` fields must match one of their literals, the optional
`header_info` accepts absence or `null`, and extra keys are ignored (the
Pydantic default).  A raised `ValidationError` names the offending field;
it is modelled by the `Except.error` branch carrying that field name. -/

/-- Structured data as produced by `json.loads` (objects, arrays, strings,
integers, booleans, null). -/
inductive Json where
  | null
  | bool (b : Bool)
  | int (n : Int)
  | str (s : String)
  | arr (items : List Json)
  | obj (fields : List (String × Json))

/-- Key lookup in a parsed object. -/
def lookupKey (fields : List (String × Json)) (k : String) : Option Json :=
  (fields.find? (fun p => p.1 == k)).map Prod.snd

/-- Pydantic validation of a `HeaderInfo` payload (models.py:9-16): both
`start_row` and `end_row` are required integers, `header_type` a required
literal.  On failure, the name of the offending field. -/
def validateHeaderInfo (j : Json) : Except String HeaderInfo :=
  match j with
  | .obj fields =>
    match lookupKey fields "start_row" with
    | some (.int s) =>
      match lookupKey fields "end_row" with
      | some (.int e) =>
        match lookupKey fields "header_type" with
        | some (.str t) =>
          match headerTypeOfString t with
          | some ht => .ok ⟨s, e, ht⟩
          | none => .error "header_type"
        | _ => .error "header_type"
      | _ => .error "end_row"
    | _ => .error "start_row"
  | _ => .error "header_info"

/-- Pydantic validation of one `SheetAnalysisResult` payload
(models.py:19-33). -/
def validateSheetResult (j : Json) : Except String SheetAnalysisResult :=
  match j with
  | .obj fields =>
    match lookupKey fields "sheet_name" with
    | some (.str name) =>
      match lookupKey fields "sheet_type" with
      | some (.str t) =>
        match sheetTypeOfString t with
        | some st =>
          match lookupKey fields "reasoning" with
          | some (.str reason) =>
            match lookupKey fields "header_info" with
            | none => .ok ⟨name, st, none, reason⟩
            | some .null => .ok ⟨name, st, none, reason⟩
            | some hj =>
              match validateHeaderInfo hj with
              | .ok hi => .ok ⟨name, st, some hi, reason⟩
              | .error f => .error f
          | _ => .error "reasoning"
        | none => .error "sheet_type"
      | _ => .error "sheet_type"
    | _ => .error "sheet_name"
  | _ => .error "sheets"

/-- Validation of the `sheets` array, element by element. -/
def validateSheets : List Json → Except String (List SheetAnalysisResult)
  | [] => .ok []
  | j :: rest =>
    match validateSheetResult j with
    | .ok r =>
      match validateSheets rest with
      | .ok rs => .ok (r :: rs)
      | .error f => .error f
    | .error f => .error f

/-- Pydantic validation of the whole reply, `ExcelAnalysisOutput(**json_data)`
(llm_api.py:248, models.py:36-41). -/
def validateOutput (j : Json) : Except String ExcelAnalysisOutput :=
  match j with
  | .obj fields =>
    match lookupKey fields "sheets" with
    | some (.arr items) =>
      match validateSheets items with
      | .ok rs => .ok ⟨rs⟩
      | .error f => .error f
    | _ => .error "sheets"
  | _ => .error "sheets"

/-- Pydantic serialization (`model_dump`) of a `HeaderInfo`. -/
def serializeHeaderInfo (h : HeaderInfo) : Json :=
  .obj [("start_row", .int h.start_row), ("end_row", .int h.end_row),
        ("header_type", .str h.header_type.toLiteral)]

/-- Pydantic serialization (`model_dump`) of a `SheetAnalysisResult`;
an absent `header_info` serializes as `null`. -/
def serializeSheetResult (r : SheetAnalysisResult) : Json :=
  .obj [("sheet_name", .str r.sheet_name),
        ("sheet_type", .str r.sheet_type.toLiteral),
        ("header_info",
          match r.header_info with
          | none => .null
          | some h => serializeHeaderInfo h),
        ("reasoning", .str r.reasoning)]

/-- Pydantic serialization (`model_dump`) of an `ExcelAnalysisOutput`. -/
def serializeOutput (o : ExcelAnalysisOutput) : Json :=
  .obj [("sheets", .arr (o.sheets.map serializeSheetResult))]

/-- Python `str.strip()` on the left end only: drop leading whitespace. -/
def pyStripLeft : List Char → List Char
  | [] => []
  | c :: rest => if c.isWhitespace then pyStripLeft rest else c :: rest

/-- Python `str.strip()`: drop leading and trailing whitespace. -/
def pyStrip (l : List Char) : List Char :=
  ((pyStripLeft ((pyStripLeft l).reverse)).reverse)

/-- Python `str.startswith(pat)` on character lists. -/
def listStarts : List Char → List Char → Bool
  | _, [] => true
  | [], _ :: _ => false
  | a :: as, b :: bs => a == b && listStarts as bs

/-- Python `str.endswith(pat)` on character lists. -/
def listEnds (l pat : List Char) : Bool :=
  listStarts l.reverse pat.reverse

/-- The fence-stripping step of `analyze_excel_with_llm` (llm_api.py:235-242)
on the reply's character list: `strip()`, drop a leading ```` ```json ````
marker (`[7:]`), drop a leading ```` ``` ```` marker (`[3:]`), drop a
trailing ```` ``` ```` marker (`[:-3]`), `strip()` again. -/
def fenceStrip (l : List Char) : List Char :=
  let c := pyStrip l
  let c := if listStarts c "```json".data then c.drop 7 else c
  let c := if listStarts c "```".data then c.drop 3 else c
  let c := if listEnds c "```".data then c.take (c.length - 3) else c
  pyStrip c

/-- `stripFence` as a `String` transformation. -/
def stripFence (s : String) : String := String.mk (fenceStrip s.data)

/-- Error outcomes of the reply-processing stage of `analyze_excel_with_llm`
(llm_api.py:251-258): a `json.JSONDecodeError` (parse error) or a Pydantic
`ValidationError` naming the offending field. -/
inductive ReplyError where
  | parseError (msg : String)
  | validationError (field : String)
deriving DecidableEq

/-- The reply-processing stage of `analyze_excel_with_llm`
(llm_api.py:233-258): strip the fence, parse as structured data (the
external `json.loads`, passed as `loads`), then validate with the Pydantic
model.  Parse failure and validation failure surface as distinct error
kinds. -/
def parse_llm_reply (loads : String → Except String Json)
    (reply : String) : Except ReplyError ExcelAnalysisOutput :=
  match loads (stripFence reply) with
  | .error e => .error (.parseError e)
  | .ok j =>
    match validateOutput j with
    | .ok out => .ok out
    | .error f => .error (.validationError f)

/-! ## Spec-side reference renderer

The following definitions follow the specification's words for the four-step
per-cell rendering (spec §4.2), to be compared with `renderCell`, which is
translated from the code.  They are used only to state and prove claim C1. -/

/-- Spec step 1: base text is `[EMPTY]` if the cell's value is absent and the
value's textual form otherwise. -/
def specBaseText (c : Cell) : String :=
  c.value.getD "[EMPTY]"

/-- Spec step 2's condition: the cell lies inside a merge range and is not
that range's anchor `(min_row, min_col)`. -/
def coveredNonAnchor (s : Sheet) (r c : Nat) : Bool :=
  s.merged_ranges.any (fun mr =>
    mr.containsCell r c && !(decide (r = mr.min_row) && decide (c = mr.min_col)))

/-- The spec's four-step reference rendering (spec §4.2): merge-or-value,
then bold wrap, then fill-marker last. -/
def renderCellSpec (s : Sheet) (r c : Nat) : String :=
  let cell := s.cells r c
  let t1 := if coveredNonAnchor s r c then "[MERGED]" else specBaseText cell
  let t2 := if cell.bold then "**" ++ t1 ++ "**" else t1
  if cell.hasFill then "[BG]" ++ t2 else t2

/-- The spec's merge-range invariant (spec §3): ranges of one sheet never
overlap — two ranges covering a common cell are the same range. -/
def NoOverlap (s : Sheet) : Prop :=
  ∀ mr ∈ s.merged_ranges, ∀ mr' ∈ s.merged_ranges, ∀ r c : Nat,
    mr.containsCell r c = true → mr'.containsCell r c = true → mr = mr'

/-! ## Theorems -/

theorem baseText_eq_spec (c : Cell) : baseText c = specBaseText c := by
  cases h : c.value <;> simp [baseText, specBaseText, h]

theorem mergeText_eq_spec (s : Sheet) (h : NoOverlap s) (r c : Nat) (t : String) :
    mergeText s r c t = if coveredNonAnchor s r c then "[MERGED]" else t := by
  unfold mergeText coveredNonAnchor
  cases hfind : s.merged_ranges.find? (fun mr => mr.containsCell r c) with
  | none =>
    have hnone := List.find?_eq_none.mp hfind
    have hany : (s.merged_ranges.any fun mr =>
        mr.containsCell r c &&
          !(decide (r = mr.min_row) && decide (c = mr.min_col))) = false := by
      simp only [List.any_eq_false]
      intro mr hmr
      simp [hnone mr hmr]
    rw [hany]
    simp
  | some mr =>
    have hmem := List.mem_of_find?_eq_some hfind
    have hcont : mr.containsCell r c = true := by
      simpa using List.find?_some hfind
    by_cases hanchor : r = mr.min_row ∧ c = mr.min_col
    · have hany : (s.merged_ranges.any fun mr' =>
          mr'.containsCell r c &&
            !(decide (r = mr'.min_row) && decide (c = mr'.min_col))) = false := by
        simp only [List.any_eq_false]
        intro mr' hmr'
        by_cases hc : mr'.containsCell r c = true
        · have heq := h mr' hmr' mr hmem r c hc hcont
          subst heq
          simp [hanchor.1, hanchor.2]
        · simp [Bool.eq_false_iff.mpr hc]
      rw [hany]
      simp [hanchor]
    · have hany : (s.merged_ranges.any fun mr' =>
          mr'.containsCell r c &&
            !(decide (r = mr'.min_row) && decide (c = mr'.min_col))) = true := by
        simp only [List.any_eq_true]
        refine ⟨mr, hmem, ?_⟩
        simp [hcont]
        exact not_and_or.mp hanchor
      rw [hany]
      simp [hanchor]

/-- **C1.** For every cell in the serialized window, the text rendered by the
code (`renderCell`, from `excel_to_text_representation`) equals the spec's
four-step reference function `renderCellSpec`: base text `[EMPTY]`/value,
merge override to `[MERGED]` for covered non-anchor cells (the anchor keeps
its own base text), then the bold `**`-wrap, then the `[BG]` marker added
last — so a bold, filled, empty, non-merged cell renders `[BG]**[EMPTY]**`
and a bold merged non-anchor cell renders `**[MERGED]**`.  Stated under the
spec's invariant that merge ranges of one sheet never overlap. -/
theorem C1_cell_rendering (s : Sheet) (h : NoOverlap s) :
    (∀ r c : Nat, renderCell s r c = renderCellSpec s r c) ∧
    ∀ r : Nat, rowCells s r =
      (List.range s.max_column).map (fun j => renderCellSpec s r (j + 1)) := by
  have hp : ∀ r c : Nat, renderCell s r c = renderCellSpec s r c := by
    intro r c
    simp only [renderCell, renderCellSpec]
    rw [mergeText_eq_spec s h, baseText_eq_spec]
  refine ⟨hp, fun r => ?_⟩
  unfold rowCells
  exact List.map_congr_left (fun j _ => hp r (j + 1))

/-- A concrete sheet for the C1 witness: row 1 merges columns 1–2, the anchor
holds a bold "H", column 2 is a bold merged continuation, column 3 is a bold,
filled, empty, unmerged cell. -/
def c1Sheet : Sheet where
  max_row := 1
  max_column := 3
  cells := fun r c =>
    if r = 1 ∧ c = 1 then ⟨some "H", true, false⟩
    else if r = 1 ∧ c = 2 then ⟨none, true, false⟩
    else ⟨none, true, true⟩
  merged_ranges := [⟨1, 1, 1, 2⟩]
  num_tables := 0

theorem c1Sheet_noOverlap : NoOverlap c1Sheet := by
  intro mr hmr mr' hmr' r c _ _
  simp only [c1Sheet, List.mem_singleton] at hmr hmr'
  rw [hmr, hmr']

/-- Witness for C1 at the concrete sheet `c1Sheet`. -/
theorem C1_witness :
    renderCell c1Sheet 1 2 = "**[MERGED]**" ∧
    renderCell c1Sheet 1 3 = "[BG]**[EMPTY]**" ∧
    renderCell c1Sheet 1 1 = "**H**" := by
  have h := (C1_cell_rendering c1Sheet c1Sheet_noOverlap).1
  refine ⟨?_, ?_, ?_⟩
  · rw [h 1 2]; decide
  · rw [h 1 3]; decide
  · rw [h 1 1]; decide

/-- **C2.** For every sheet of a successfully loaded workbook, the serializer
emits exactly one row line per row for rows `1 .. min(max_row, maxRows)`
(the cap defaults to 20 at the call sites); the line for row `r` has the form
`row{r}: | c1 | ... |` and covers every column `1 .. max_column` (the column
count is never truncated); the per-sheet result is the newline-join of the
sheet's lines, and the overall result is a mapping keyed by sheet name. -/
theorem C2_row_structure (wb : Workbook) (s : Sheet) (maxRows r : Nat)
    (h1 : 1 ≤ r) (h2 : r ≤ min s.max_row maxRows) :
    (excel_to_text_representation (.ok wb) maxRows).map Prod.fst
        = wb.sheets.map Prod.fst ∧
    (∀ p ∈ wb.sheets,
      (p.1, String.intercalate "\n" (sheetAllLines p.2 maxRows))
        ∈ excel_to_text_representation (.ok wb) maxRows) ∧
    (rowLines s maxRows).length = min s.max_row maxRows ∧
    (rowLines s maxRows).get? (r - 1) = some (rowText s r) ∧
    (rowCells s r).length = s.max_column ∧
    rowText s r = "row" ++ toString r ++ ": | " ++
      String.intercalate " | " (rowCells s r) ++ " |" := by
  refine ⟨?_, ?_, ?_, ?_, ?_, rfl⟩
  · simp [excel_to_text_representation]
  · intro p hp
    simp only [excel_to_text_representation, sheetText]
    exact List.mem_map_of_mem (fun q => (q.1, String.intercalate "\n" (sheetAllLines q.2 maxRows))) hp
  · simp [rowLines]
  · have hlt : r - 1 < min s.max_row maxRows := by omega
    simp only [rowLines, List.get?_map, List.get?_range hlt, Option.map_some']
    congr 2
    omega
  · simp [rowCells]

/-- A concrete workbook for the C2 witness: one sheet named "S" with 3 rows
and 2 columns of plain values. -/
def c2Sheet : Sheet where
  max_row := 3
  max_column := 2
  cells := fun r c => ⟨some (toString r ++ "-" ++ toString c), false, false⟩
  merged_ranges := []
  num_tables := 0

/-- The C2 witness workbook. -/
def c2Wb : Workbook := ⟨[("S", c2Sheet)]⟩

/-- Witness for C2 at the concrete workbook `c2Wb`, row 2, cap 20. -/
theorem C2_witness :
    (rowLines c2Sheet 20).get? 1 = some (rowText c2Sheet 2) ∧
    (rowLines c2Sheet 20).length = 3 ∧
    (rowCells c2Sheet 2).length = 2 ∧
    ("S", String.intercalate "\n" (sheetAllLines c2Sheet 20))
      ∈ excel_to_text_representation (.ok c2Wb) 20 ∧
    rowText c2Sheet 2 = "row2: | 2-1 | 2-2 |" := by
  have h := C2_row_structure c2Wb c2Sheet 20 2 (by decide) (by decide)
  exact ⟨h.2.2.2.1, h.2.2.1, h.2.2.2.2.1,
    h.2.1 ("S", c2Sheet) (List.mem_singleton.mpr rfl), by decide⟩

/-- **C3.** Whenever a sheet's true row count exceeds the cap, the serializer
appends exactly one trailing truncation-notice line of the literal form
`... (実際には{true_row_count}行ありますが、最初の{cap}行のみ表示)` after the
`cap`-many row lines; no notice is appended when the row count does not
exceed the cap; and at true row count 25 with cap 20 the notice names 25 and
20. -/
theorem C3_truncation (s : Sheet) (maxRows : Nat) :
    (s.max_row > maxRows →
      sheetAllLines s maxRows
          = rowLines s maxRows ++ [truncNotice s.max_row maxRows] ∧
      (rowLines s maxRows).length = maxRows) ∧
    (s.max_row ≤ maxRows → sheetAllLines s maxRows = rowLines s maxRows) ∧
    truncNotice 25 20 = "... (実際には25行ありますが、最初の20行のみ表示)" := by
  refine ⟨fun hgt => ⟨?_, ?_⟩, fun hle => ?_, by decide⟩
  · simp [sheetAllLines, hgt]
  · simp [rowLines]
    omega
  · simp [sheetAllLines]
    omega

/-- A concrete sheet with 25 empty rows for the C3 witness. -/
def c3Sheet : Sheet where
  max_row := 25
  max_column := 1
  cells := fun _ _ => ⟨none, false, false⟩
  merged_ranges := []
  num_tables := 0

/-- Witness for C3 at the concrete 25-row sheet and cap 20: exactly 20 row
lines plus one notice line naming 25 and 20. -/
theorem C3_witness :
    sheetAllLines c3Sheet 20
        = rowLines c3Sheet 20
            ++ ["... (実際には25行ありますが、最初の20行のみ表示)"] ∧
    (rowLines c3Sheet 20).length = 20 ∧
    (sheetAllLines c3Sheet 20).length = 21 := by
  have h := C3_truncation c3Sheet 20
  have h1 := (h.1 (by decide)).1
  have h2 := (h.1 (by decide)).2
  have hmr : c3Sheet.max_row = 25 := rfl
  refine ⟨?_, h2, ?_⟩
  · rw [h1, hmr, h.2.2]
  · rw [h1]
    simp [h2]

/-- Non-empty cells never exceed the declared extent. -/
theorem nonEmptyCells_le (s : Sheet) :
    nonEmptyCells s ≤ s.max_row * s.max_column := by
  unfold nonEmptyCells
  have hb : ∀ x ∈ (List.range s.max_row).map (fun i =>
      (List.range s.max_column).countP (fun j =>
        ((s.cells (i + 1) (j + 1)).value).isSome)), x ≤ s.max_column := by
    intro x hx
    simp only [List.mem_map] at hx
    obtain ⟨i, _, rfl⟩ := hx
    simpa using @List.countP_le_length Nat
      (fun j => ((s.cells (i + 1) (j + 1)).value).isSome) (List.range s.max_column)
  calc ((List.range s.max_row).map _).sum
      ≤ ((List.range s.max_row).map (fun i =>
          (List.range s.max_column).countP (fun j =>
            ((s.cells (i + 1) (j + 1)).value).isSome))).length • s.max_column :=
        List.sum_le_card_nsmul _ _ hb
    _ = s.max_row * s.max_column := by simp [smul_eq_mul]

/-- **C4.** For every sheet, the structural profiler's `data_density` equals
`non_empty_cells / (max_row * max_column)`, lies in `[0, 1]`, and equals `0`
(not an error) when `max_row * max_column = 0`; and the reported merged-cell
count is the cardinality of the merge-range list, not the number of covered
cells. -/
theorem C4_density (s : Sheet) :
    (0 < s.max_row * s.max_column →
      data_density s
        = (nonEmptyCells s : ℚ) / ((s.max_row * s.max_column : Nat) : ℚ)) ∧
    0 ≤ data_density s ∧ data_density s ≤ 1 ∧
    (s.max_row * s.max_column = 0 → data_density s = 0) ∧
    (sheetStats s).dataDensity = data_density s ∧
    (sheetStats s).numMergedCells = s.merged_ranges.length := by
  refine ⟨fun hpos => by simp [data_density, hpos], ?_, ?_, fun hz => ?_, rfl, rfl⟩
  · unfold data_density
    split
    · positivity
    · exact le_refl 0
  · unfold data_density
    split
    · rename_i hpos
      rw [div_le_one (by exact_mod_cast hpos)]
      exact_mod_cast nonEmptyCells_le s
    · exact zero_le_one
  · simp [data_density, hz]

/-- A concrete sheet for the C4 witness: 2×2 extent, 3 non-empty cells, one
merge range covering 4 cells (so range cardinality 1 ≠ 4 covered cells). -/
def c4Sheet : Sheet where
  max_row := 2
  max_column := 2
  cells := fun r c => if r = 2 ∧ c = 2 then ⟨none, false, false⟩
    else ⟨some "v", false, false⟩
  merged_ranges := [⟨1, 1, 2, 2⟩]
  num_tables := 0

/-- Witness for C4 at the concrete sheet `c4Sheet`: density 3/4, and the
merged-cell count is 1 (the range count), not 4 (the covered-cell count). -/
theorem C4_witness :
    data_density c4Sheet = 3 / 4 ∧
    (sheetStats c4Sheet).numMergedCells = 1 := by
  have h := C4_density c4Sheet
  have h1 := h.1 (by decide)
  have h3 : nonEmptyCells c4Sheet = 3 := by decide
  have h4 : c4Sheet.max_row * c4Sheet.max_column = 4 := by decide
  constructor
  · rw [h1, h3, h4]
    norm_num
  · rw [h.2.2.2.2.2]
    decide

/-- **C5.** If the workbook bytes fail to parse, both the structural profiler
and the text serializer return a single error indicator for the whole
operation (no partial per-sheet results); once the workbook loads,
serialization is total: it produces exactly one entry per sheet, keyed by
sheet name. -/
theorem C5_load_failure (e : String) (maxRows : Nat) (wb : Workbook) :
    excel_to_text_representation (.error e) maxRows
        = [("error", loadErrMsg e)] ∧
    (excel_to_text_representation (.error e) maxRows).length = 1 ∧
    analyze_excel_structure (.error e) = .error (loadErrMsg e) ∧
    (excel_to_text_representation (.ok wb) maxRows).map Prod.fst
        = wb.sheets.map Prod.fst ∧
    (excel_to_text_representation (.ok wb) maxRows).length = wb.sheets.length ∧
    analyze_excel_structure (.ok wb)
        = .ok (wb.sheets.map fun p => (p.1, sheetStats p.2)) := by
  refine ⟨rfl, rfl, rfl, ?_, ?_, rfl⟩
  · simp [excel_to_text_representation]
  · simp [excel_to_text_representation]

/-- A well-formed reply whose `sheet_type` is the out-of-enum literal
`"unknown_type"`. -/
def unknownTypeJson : Json :=
  .obj [("sheets", .arr [.obj [("sheet_name", .str "Sheet1"),
    ("sheet_type", .str "unknown_type"), ("reasoning", .str "r")]])]

/-- A well-formed reply whose `header_info` has `start_row` but no
`end_row`. -/
def missingEndRowJson : Json :=
  .obj [("sheets", .arr [.obj [("sheet_name", .str "Sheet1"),
    ("sheet_type", .str "table"),
    ("header_info", .obj [("start_row", .int 1), ("header_type", .str "single")]),
    ("reasoning", .str "r")]])]

/-- **C6.** The reply-processing stage fails with a parse error when the
fence-stripped reply is not well-formed structured data, and with a
validation error — a distinct error kind, naming the offending field — when
the data is well-formed but schema-violating: a reply with `sheet_type`
`"unknown_type"` is rejected naming `sheet_type`, and a reply whose header
has `start_row` but no `end_row` is rejected naming `end_row`. -/
theorem C6_error_kinds (loads : String → Except String Json)
    (reply msg : String) :
    (loads (stripFence reply) = .error msg →
      parse_llm_reply loads reply = .error (.parseError msg)) ∧
    (loads (stripFence reply) = .ok unknownTypeJson →
      parse_llm_reply loads reply = .error (.validationError "sheet_type")) ∧
    (loads (stripFence reply) = .ok missingEndRowJson →
      parse_llm_reply loads reply = .error (.validationError "end_row")) ∧
    (∀ a b : String, ReplyError.parseError a ≠ ReplyError.validationError b) := by
  refine ⟨fun h => ?_, fun h => ?_, fun h => ?_, fun a b hab => by cases hab⟩
  · unfold parse_llm_reply
    rw [h]
  · unfold parse_llm_reply
    rw [h]
    rfl
  · unfold parse_llm_reply
    rw [h]
    rfl

/-- A concrete external parse function for the C6 witness: two marked inputs
parse to the two schema-violating payloads, everything else is malformed. -/
def c6Loads : String → Except String Json := fun s =>
  if s = "u" then .ok unknownTypeJson
  else if s = "m" then .ok missingEndRowJson
  else .error "Expecting value"

/-- Witness for C6 at the concrete parse function `c6Loads`. -/
theorem C6_witness :
    parse_llm_reply c6Loads "u" = .error (.validationError "sheet_type") ∧
    parse_llm_reply c6Loads "m" = .error (.validationError "end_row") ∧
    parse_llm_reply c6Loads "not json" = .error (.parseError "Expecting value") := by
  exact ⟨(C6_error_kinds c6Loads "u" "Expecting value").2.1 rfl,
    (C6_error_kinds c6Loads "m" "Expecting value").2.2.1 rfl,
    (C6_error_kinds c6Loads "not json" "Expecting value").1 rfl⟩

theorem validate_serialize_headerInfo (h : HeaderInfo) :
    validateHeaderInfo (serializeHeaderInfo h) = .ok h := by
  obtain ⟨s, e, ht⟩ := h
  cases ht <;> rfl

theorem validate_serialize_sheetResult (r : SheetAnalysisResult) :
    validateSheetResult (serializeSheetResult r) = .ok r := by
  obtain ⟨name, st, hi, reason⟩ := r
  cases hi with
  | none => cases st <;> rfl
  | some h =>
    obtain ⟨s, e, ht⟩ := h
    cases st <;> cases ht <;> rfl

theorem validate_serialize_sheets (l : List SheetAnalysisResult) :
    validateSheets (l.map serializeSheetResult) = .ok l := by
  induction l with
  | nil => rfl
  | cons a t ih => simp [validateSheets, validate_serialize_sheetResult, ih]

/-- **C7.** Round trip: validating the exact structured form produced by
serializing any `ExcelAnalysisOutput` recovers identical field values, and
the reply pipeline accepts that form — whether the reply carries it bare or
wrapped in an (optionally `json`-tagged) fenced code block, since the fence
is stripped before the parse. -/
theorem C7_roundtrip (x : ExcelAnalysisOutput)
    (loads : String → Except String Json) (reply : String) :
    validateOutput (serializeOutput x) = .ok x ∧
    (loads (stripFence reply) = .ok (serializeOutput x) →
      parse_llm_reply loads reply = .ok x) := by
  have hv : validateOutput (serializeOutput x) = .ok x := by
    obtain ⟨sheets⟩ := x
    simp [validateOutput, serializeOutput, lookupKey, validate_serialize_sheets]
  refine ⟨hv, fun h => ?_⟩
  unfold parse_llm_reply
  rw [h]
  simp [hv]

/-- A concrete analysis output for the C7 witness. -/
def c7Out : ExcelAnalysisOutput :=
  ⟨[⟨"Sheet1", .table, some ⟨1, 2, .multiLevel⟩, "bold header rows"⟩,
    ⟨"Sheet2", .form, none, "label-value pairs"⟩]⟩

/-- A concrete external parse function for the C7 witness: the body
`"sample"` parses to the serialized form of `c7Out`. -/
def c7Loads : String → Except String Json := fun s =>
  if s = "sample" then .ok (serializeOutput c7Out) else .error "Expecting value"

/-- Witness for C7: the pipeline recovers `c7Out` from the bare body, from
the `json`-tagged fenced body, and from the untagged fenced body. -/
theorem C7_witness :
    parse_llm_reply c7Loads "sample" = .ok c7Out ∧
    parse_llm_reply c7Loads "```json\nsample\n```" = .ok c7Out ∧
    parse_llm_reply c7Loads "```\nsample\n```" = .ok c7Out := by
  exact ⟨(C7_roundtrip c7Out c7Loads "sample").2 rfl,
    (C7_roundtrip c7Out c7Loads "```json\nsample\n```").2 rfl,
    (C7_roundtrip c7Out c7Loads "```\nsample\n```").2 rfl⟩

/-- A well-formed reply whose header has `end_row = 2 < start_row = 5`. -/
def c8Json : Json :=
  .obj [("sheets", .arr [.obj [("sheet_name", .str "Sheet1"),
    ("sheet_type", .str "table"),
    ("header_info", .obj [("start_row", .int 5), ("end_row", .int 2),
      ("header_type", .str "single")]),
    ("reasoning", .str "r")]])]

/-- The validated output of `c8Json`. -/
def c8Out : ExcelAnalysisOutput :=
  ⟨[⟨"Sheet1", .table, some ⟨5, 2, .single⟩, "r"⟩]⟩

/-- **C8 counterexample.** The claim "no reply with `end_row < start_row`
passes validation" is false: the reply `c8Json`, whose header has
`start_row = 5` and `end_row = 2`, validates successfully, and the resulting
`HeaderInfo` violates `end_row ≥ start_row`. -/
theorem C8_counterexample :
    validateOutput c8Json = .ok c8Out ∧
    parse_llm_reply (fun _ => .ok c8Json) "reply" = .ok c8Out ∧
    ∃ r ∈ c8Out.sheets, ∃ h, r.header_info = some h ∧ h.end_row < h.start_row := by
  refine ⟨rfl, rfl, ⟨"Sheet1", .table, some ⟨5, 2, .single⟩, "r"⟩,
    List.mem_singleton.mpr rfl, ⟨5, 2, .single⟩, rfl, by decide⟩

/-- **C8 amended.** Validation of `HeaderInfo` checks only that `start_row`
and `end_row` are present integers and `header_type` is one of its two
literals; it enforces no order relation, so any integer pair — including
`end_row < start_row` — passes validation and is preserved. -/
theorem C8_amended (s e : Int) (ht : HeaderType) :
    validateHeaderInfo (.obj [("start_row", .int s), ("end_row", .int e),
      ("header_type", .str ht.toLiteral)]) = .ok ⟨s, e, ht⟩ := by
  cases ht <;> rfl

/-- A well-formed reply with `sheet_type = "form"` carrying a header. -/
def c9Json : Json :=
  .obj [("sheets", .arr [.obj [("sheet_name", .str "Sheet1"),
    ("sheet_type", .str "form"),
    ("header_info", .obj [("start_row", .int 1), ("end_row", .int 1),
      ("header_type", .str "single")]),
    ("reasoning", .str "r")]])]

/-- The validated output of `c9Json`. -/
def c9Out : ExcelAnalysisOutput :=
  ⟨[⟨"Sheet1", .form, some ⟨1, 1, .single⟩, "r"⟩]⟩

/-- **C9 counterexample.** The claim that every validated result with
`sheet_type` `"form"` or `"unknown"` has `header_info` absent is false: the
reply `c9Json` with `sheet_type = "form"` and a present `header_info`
validates successfully, and the resulting record carries the header. -/
theorem C9_counterexample :
    validateOutput c9Json = .ok c9Out ∧
    parse_llm_reply (fun _ => .ok c9Json) "reply" = .ok c9Out ∧
    ∃ r ∈ c9Out.sheets, r.sheet_type = .form ∧ r.header_info ≠ none := by
  refine ⟨rfl, rfl, ⟨"Sheet1", .form, some ⟨1, 1, .single⟩, "r"⟩,
    List.mem_singleton.mpr rfl, rfl, by decide⟩

/-- **C9 amended.** Schema validation leaves `header_info` presence
independent of `sheet_type`: a result payload with `sheet_type` `"form"` or
`"unknown"` and a present header validates successfully with the header
preserved. -/
theorem C9_amended (name reason : String) (hi : HeaderInfo) :
    validateSheetResult (serializeSheetResult ⟨name, .form, some hi, reason⟩)
        = .ok ⟨name, .form, some hi, reason⟩ ∧
    validateSheetResult (serializeSheetResult ⟨name, .unknown, some hi, reason⟩)
        = .ok ⟨name, .unknown, some hi, reason⟩ :=
  ⟨validate_serialize_sheetResult _, validate_serialize_sheetResult _⟩

/-- A trivial sheet whose name will be the literal `"error"`. -/
def errNamedSheet : Sheet where
  max_row := 1
  max_column := 1
  cells := fun _ _ => ⟨some "x", false, false⟩
  merged_ranges := []
  num_tables := 0

/-- A successfully loaded workbook containing a sheet named `"error"`. -/
def errNamedWb : Workbook := ⟨[("error", errNamedSheet)]⟩

/-- **C10.** The serializer's failure indicator is a mapping containing the
key `"error"`; a successfully loaded workbook with a sheet literally named
`"error"` also produces a mapping containing that key, so a caller that
tests membership of `"error"` (as `app.py` does) cannot distinguish that
success from a load failure. -/
theorem C10_error_key_ambiguity :
    hasKey (excel_to_text_representation (.ok errNamedWb) 20) "error" = true ∧
    (∀ e : String,
      hasKey (excel_to_text_representation (.error e) 20) "error" = true) ∧
    (excel_to_text_representation (.ok errNamedWb) 20).map Prod.fst
        = ["error"] := by
  refine ⟨rfl, fun e => rfl, rfl⟩

end ExcelFormat
